import Mathlib

/-!
# Bump-sequence operation frame

A shallow embedding of `src/transactions/BumpSequenceOpFrame.cpp`:
`getThresholdLevel`, `doApply` and `doCheckValid`, written as pure functions
over an explicit state (`OpState`) holding everything the C++ methods touch:
the source account frame, the ledger delta, the inner result code and the
metrics registry.
-/

namespace stellar

/-- Sequence numbers are unsigned 64-bit integers.  The operation only compares
them and takes a maximum, so no arithmetic can wrap; they are embedded as
natural numbers. -/
abbrev SequenceNumber := Nat

/-- Account identifiers (public keys); only equality is ever used. -/
abbrev AccountID := Nat

/-- The optional `range` member of the operation body: an inclusive window. -/
structure SequenceRange where
  min : SequenceNumber
  max : SequenceNumber
  deriving DecidableEq, Repr

/-- The body of the operation, `mOperation.body.bumpSequenceOp()`. -/
structure BumpSequenceOp where
  bumpTo : SequenceNumber
  range : Option SequenceRange
  deriving DecidableEq, Repr

/-- Result codes used by `innerResult().code(...)`. -/
inductive BumpSequenceResultCode where
  | BUMP_SEQ_SUCCESS
  | BUMP_SEQ_OUT_OF_RANGE
  | BUMP_SEQ_NOT_SUPPORTED_YET
  | BUMP_SEQ_NO_SELF_BUMP
  | BUMP_SEQ_INVALID_RANGE
  deriving DecidableEq, Repr

/-- Signature-weight categories. -/
inductive ThresholdLevel where
  | LOW
  | MEDIUM
  | HIGH
  deriving DecidableEq, Repr

/-- Modelled from the spec: the account ledger entry (`AccountEntry` is declared
outside the source file).  The spec lists identity, sequence number and
unrelated fields (balance, signers) owned elsewhere. -/
structure AccountEntry where
  accountID : AccountID
  balance : Int
  seqNum : SequenceNumber
  signers : List (AccountID × Nat)
  deriving DecidableEq, Repr

/-- Modelled from the spec: the account frame wrapping the ledger entry
(`AccountFrame` is declared outside the source file). -/
structure AccountFrame where
  mAccountEntry : AccountEntry
  deriving DecidableEq, Repr

/-- Modelled from the spec: `getSequenceNumber`, the ledger read interface. -/
def AccountFrame.getSeqNum (a : AccountFrame) : SequenceNumber :=
  a.mAccountEntry.seqNum

/-- Modelled from the spec: `setSequenceNumber`, the ledger write interface; it
rewrites the sequence-number field and nothing else. -/
def AccountFrame.setSeqNum (a : AccountFrame) (v : SequenceNumber) : AccountFrame :=
  { a with mAccountEntry := { a.mAccountEntry with seqNum := v } }

/-- The name of a meter, as passed to `NewMeter`. -/
structure MetricName where
  domain : String
  type : String
  name : String
  deriving DecidableEq, Repr

/-- Everything the two methods read or write besides the immutable frame.
`codeWrites` is a history of the calls `innerResult().code(...)`, oldest
first; `code` is the value the result currently holds. -/
structure OpState where
  bumpAccount : AccountFrame
  delta : List AccountEntry
  code : BumpSequenceResultCode
  codeWrites : List BumpSequenceResultCode
  meters : List (MetricName × String)
  deriving DecidableEq, Repr

/-- The effect of `app.getMetrics().NewMeter(name, event).Mark()`. -/
def OpState.mark (s : OpState) (n : MetricName) (event : String) : OpState :=
  { s with meters := s.meters ++ [(n, event)] }

/-- The effect of `innerResult().code(c)`. -/
def OpState.setCode (s : OpState) (c : BumpSequenceResultCode) : OpState :=
  { s with code := c, codeWrites := s.codeWrites ++ [c] }

/-- The effect of `bumpAccount.setSeqNum(v)`. -/
def OpState.setSeqNum (s : OpState) (v : SequenceNumber) : OpState :=
  { s with bumpAccount := s.bumpAccount.setSeqNum v }

/-- Modelled from the spec: `storeChange(delta, db)` (defined outside the source
file) appends the account's entry to the ledger change log. -/
def OpState.storeChange (s : OpState) : OpState :=
  { s with delta := s.delta ++ [s.bumpAccount.mAccountEntry] }

/-- The immutable part of the operation frame: the operation body, the value of
`getSourceID()` (computed by the base class, outside the source file) and the
source account of the enclosing transaction envelope. -/
structure BumpSequenceOpFrame where
  mBumpSequence : BumpSequenceOp
  sourceID : AccountID
  txSourceAccount : AccountID
  deriving DecidableEq, Repr

/-- Embeds `BumpSequenceOpFrame::getThresholdLevel`. -/
def getThresholdLevel (_f : BumpSequenceOpFrame) : ThresholdLevel :=
  ThresholdLevel.LOW

/-- Embeds `BumpSequenceOpFrame::doApply`. -/
def doApply (f : BumpSequenceOpFrame) (s : OpState) : Bool × OpState :=
  let current := s.bumpAccount.getSeqNum
  if (match f.mBumpSequence.range with
      | some r => decide (current < r.min) || decide (current > r.max)
      | none => false) then
    let s1 := s.mark ⟨"op-bump-sequence", "failure", "out-of-range"⟩ "operation"
    let s2 := s1.setCode BumpSequenceResultCode.BUMP_SEQ_OUT_OF_RANGE
    (false, s2)
  else
    let s1 := s.setSeqNum (max f.mBumpSequence.bumpTo current)
    let s2 := s1.storeChange
    let s3 := s2.setCode BumpSequenceResultCode.BUMP_SEQ_SUCCESS
    let s4 := s3.mark ⟨"op-bump-sequence", "success", "apply"⟩ "operation"
    (true, s4)

/-- Embeds `BumpSequenceOpFrame::doCheckValid`; `ledgerVersion` is the value of
`app.getLedgerManager().getCurrentLedgerVersion()`. -/
def doCheckValid (f : BumpSequenceOpFrame) (ledgerVersion : Nat) (s : OpState) :
    Bool × OpState :=
  if ledgerVersion < 9 then
    let s1 := s.mark ⟨"op-bump-sequence", "failure", "not-supported-yet"⟩ "operation"
    let s2 := s1.setCode BumpSequenceResultCode.BUMP_SEQ_NOT_SUPPORTED_YET
    (false, s2)
  else if f.txSourceAccount = f.sourceID then
    let s1 := s.mark ⟨"op-bump-sequence", "failure", "no-self-bump"⟩ "operation"
    let s2 := s1.setCode BumpSequenceResultCode.BUMP_SEQ_NO_SELF_BUMP
    (false, s2)
  else
    match f.mBumpSequence.range with
    | some r =>
      if r.max < r.min then
        let s1 := s.mark ⟨"op-bump-sequence", "failure", "invalid-range"⟩ "operation"
        let s2 := s1.setCode BumpSequenceResultCode.BUMP_SEQ_INVALID_RANGE
        (false, s2)
      else
        (true, s)
    | none => (true, s)

/-- The codes written by a run that took the state from `s` to `t`: the part
of the write history of `t` that comes after the history of `s`. -/
def codesWritten (s t : OpState) : List BumpSequenceResultCode :=
  t.codeWrites.drop s.codeWrites.length

/-- A frame around an operation body, bumping account `2` inside a transaction
whose source is account `1`. -/
def frameOf (op : BumpSequenceOp) : BumpSequenceOpFrame :=
  { mBumpSequence := op, sourceID := 2, txSourceAccount := 1 }

/-- A state in which the bumped account has sequence number `c`, nothing has
been logged and the result still holds its default code. -/
def stateAt (c : SequenceNumber) : OpState :=
  { bumpAccount := ⟨{ accountID := 2, balance := 0, seqNum := c, signers := [] }⟩
    delta := []
    code := BumpSequenceResultCode.BUMP_SEQ_SUCCESS
    codeWrites := []
    meters := [] }

/-- The request of the spec's scenarios: bump to 150 under the window
`[90, 120]`. -/
def scenarioOp : BumpSequenceOp :=
  { bumpTo := 150, range := some ⟨90, 120⟩ }

/-- A request whose window is malformed: `min = 120`, `max = 90`. -/
def malformedOp : BumpSequenceOp :=
  { bumpTo := 150, range := some ⟨120, 90⟩ }

/-- A frame whose source account is the source account of the enclosing
transaction (account `1` bumps itself). -/
def selfFrameOf (op : BumpSequenceOp) : BumpSequenceOpFrame :=
  { mBumpSequence := op, sourceID := 1, txSourceAccount := 1 }

/-- The scenario request with a `bumpTo` below the scenario's sequence numbers. -/
def lowBumpOp : BumpSequenceOp :=
  { bumpTo := 50, range := some ⟨90, 120⟩ }

/-- A request without a range. -/
def plainOp (b : SequenceNumber) : BumpSequenceOp :=
  { bumpTo := b, range := none }

/-- Modelled from the spec: one execution attempt as the orchestrator (outside
the source file) runs it: the validation step first, the apply step only if
validation returned true. -/
def attempt (f : BumpSequenceOpFrame) (ledgerVersion : Nat) (s : OpState) : Bool × OpState :=
  let r := doCheckValid f ledgerVersion s
  if r.1 then doApply f r.2 else r

/-- The meter each result code is reported under, read off the `NewMeter` call
that stands next to each `innerResult().code(...)` call. -/
def meterOf : BumpSequenceResultCode → MetricName
  | BumpSequenceResultCode.BUMP_SEQ_SUCCESS => ⟨"op-bump-sequence", "success", "apply"⟩
  | BumpSequenceResultCode.BUMP_SEQ_OUT_OF_RANGE => ⟨"op-bump-sequence", "failure", "out-of-range"⟩
  | BumpSequenceResultCode.BUMP_SEQ_NOT_SUPPORTED_YET =>
    ⟨"op-bump-sequence", "failure", "not-supported-yet"⟩
  | BumpSequenceResultCode.BUMP_SEQ_NO_SELF_BUMP => ⟨"op-bump-sequence", "failure", "no-self-bump"⟩
  | BumpSequenceResultCode.BUMP_SEQ_INVALID_RANGE =>
    ⟨"op-bump-sequence", "failure", "invalid-range"⟩

/-- The method `doApply` with every `NewMeter(...).Mark()` statement deleted and
nothing else changed. -/
def doApplyUnmetered (f : BumpSequenceOpFrame) (s : OpState) : Bool × OpState :=
  let current := s.bumpAccount.getSeqNum
  if (match f.mBumpSequence.range with
      | some r => decide (current < r.min) || decide (current > r.max)
      | none => false) then
    let s2 := s.setCode BumpSequenceResultCode.BUMP_SEQ_OUT_OF_RANGE
    (false, s2)
  else
    let s1 := s.setSeqNum (max f.mBumpSequence.bumpTo current)
    let s2 := s1.storeChange
    let s3 := s2.setCode BumpSequenceResultCode.BUMP_SEQ_SUCCESS
    (true, s3)

/-- The method `doCheckValid` with every `NewMeter(...).Mark()` statement deleted
and nothing else changed. -/
def doCheckValidUnmetered (f : BumpSequenceOpFrame) (ledgerVersion : Nat) (s : OpState) :
    Bool × OpState :=
  if ledgerVersion < 9 then
    (false, s.setCode BumpSequenceResultCode.BUMP_SEQ_NOT_SUPPORTED_YET)
  else if f.txSourceAccount = f.sourceID then
    (false, s.setCode BumpSequenceResultCode.BUMP_SEQ_NO_SELF_BUMP)
  else
    match f.mBumpSequence.range with
    | some r =>
      if r.max < r.min then
        (false, s.setCode BumpSequenceResultCode.BUMP_SEQ_INVALID_RANGE)
      else
        (true, s)
    | none => (true, s)

open BumpSequenceResultCode

/-! ## Shared lemmas about the two methods -/

/-- The guard of `doApply` as a proposition: the range is present and the
current sequence number lies outside it. -/
def outsideRange (f : BumpSequenceOpFrame) (c : SequenceNumber) : Prop :=
  ∃ r, f.mBumpSequence.range = some r ∧ (c < r.min ∨ r.max < c)

instance (f : BumpSequenceOpFrame) (c : SequenceNumber) : Decidable (outsideRange f c) := by
  unfold outsideRange
  cases f.mBumpSequence.range with
  | none => exact isFalse (by simp)
  | some r =>
    exact decidable_of_iff (c < r.min ∨ r.max < c) (by simp)

theorem doApply_outside (f : BumpSequenceOpFrame) (s : OpState)
    (h : outsideRange f s.bumpAccount.getSeqNum) :
    doApply f s =
      (false, (s.mark ⟨"op-bump-sequence", "failure", "out-of-range"⟩ "operation").setCode
        BUMP_SEQ_OUT_OF_RANGE) := by
  obtain ⟨r, hr, hc⟩ := h
  simp [doApply, hr, hc]

theorem doApply_inside (f : BumpSequenceOpFrame) (s : OpState)
    (h : ¬ outsideRange f s.bumpAccount.getSeqNum) :
    doApply f s =
      (true, (((s.setSeqNum (max f.mBumpSequence.bumpTo s.bumpAccount.getSeqNum)).storeChange).setCode
        BUMP_SEQ_SUCCESS).mark ⟨"op-bump-sequence", "success", "apply"⟩ "operation") := by
  unfold outsideRange at h
  cases hr : f.mBumpSequence.range with
  | none => simp [doApply, hr]
  | some r =>
    have hc : ¬ (s.bumpAccount.getSeqNum < r.min ∨ r.max < s.bumpAccount.getSeqNum) := by
      intro hc
      exact h ⟨r, hr, hc⟩
    simp [doApply, hr, hc]

theorem codesWritten_setCode_mark (s : OpState) (n : MetricName) (e : String)
    (c : BumpSequenceResultCode) :
    codesWritten s ((s.mark n e).setCode c) = [c] := by
  simp [codesWritten, OpState.mark, OpState.setCode]

theorem codesWritten_self (s : OpState) : codesWritten s s = [] := by
  simp [codesWritten]

/-! ## `doApply` -/

/-- C1: whenever the range is absent or the current sequence number `c` satisfies
`min ≤ c ≤ max`, `doApply` returns true, records `BUMP_SEQ_SUCCESS` (as its only
write of the code) and leaves the account's sequence number at `max bumpTo c`;
in particular when `bumpTo ≤ c` the sequence number stays `c`. -/
theorem doApply_success_max (f : BumpSequenceOpFrame) (s : OpState)
    (h : ∀ r, f.mBumpSequence.range = some r →
      r.min ≤ s.bumpAccount.getSeqNum ∧ s.bumpAccount.getSeqNum ≤ r.max) :
    (doApply f s).1 = true ∧
    (doApply f s).2.code = BUMP_SEQ_SUCCESS ∧
    codesWritten s (doApply f s).2 = [BUMP_SEQ_SUCCESS] ∧
    (doApply f s).2.bumpAccount.getSeqNum =
      max f.mBumpSequence.bumpTo s.bumpAccount.getSeqNum ∧
    (f.mBumpSequence.bumpTo ≤ s.bumpAccount.getSeqNum →
      (doApply f s).2.bumpAccount.getSeqNum = s.bumpAccount.getSeqNum) := by
  have hin : ¬ outsideRange f s.bumpAccount.getSeqNum := by
    rintro ⟨r, hr, hc⟩
    obtain ⟨h1, h2⟩ := h r hr
    rcases hc with hc | hc
    · exact absurd hc (Nat.not_lt.mpr h1)
    · exact absurd hc (Nat.not_lt.mpr h2)
  rw [doApply_inside f s hin]
  refine ⟨rfl, rfl, ?_, rfl, ?_⟩
  · simp [codesWritten, OpState.mark, OpState.setCode, OpState.storeChange, OpState.setSeqNum]
  · intro hb
    simp [OpState.mark, OpState.setCode, OpState.storeChange, OpState.setSeqNum,
      AccountFrame.setSeqNum, AccountFrame.getSeqNum] at *
    exact hb

/-- Witness for C1: `c = 100`, `bumpTo = 150`, range `[90, 120]` gives sequence
number 150 and `BUMP_SEQ_SUCCESS`. -/
theorem doApply_success_max_witness :
    (∀ r, (frameOf scenarioOp).mBumpSequence.range = some r →
      r.min ≤ (stateAt 100).bumpAccount.getSeqNum ∧
      (stateAt 100).bumpAccount.getSeqNum ≤ r.max) ∧
    (doApply (frameOf scenarioOp) (stateAt 100)).1 = true ∧
    (doApply (frameOf scenarioOp) (stateAt 100)).2.code = BUMP_SEQ_SUCCESS ∧
    (doApply (frameOf scenarioOp) (stateAt 100)).2.bumpAccount.getSeqNum = 150 := by
  have hw : ∀ r, (frameOf scenarioOp).mBumpSequence.range = some r →
      r.min ≤ (stateAt 100).bumpAccount.getSeqNum ∧
      (stateAt 100).bumpAccount.getSeqNum ≤ r.max := by
    intro r hr
    have hr2 : r = ⟨90, 120⟩ := by
      simpa [frameOf, scenarioOp] using hr.symm
    subst hr2
    decide
  have h := doApply_success_max (frameOf scenarioOp) (stateAt 100) hw
  exact ⟨hw, h.1, h.2.1, h.2.2.2.1⟩

/-- C2: when the request carries a range and the current sequence number `c` has
`c < min` or `c > max`, `doApply` returns false, records
`BUMP_SEQ_OUT_OF_RANGE` (as its only write of the code) and leaves the
account, hence its sequence number `c`, untouched, whatever `bumpTo` is. -/
theorem doApply_out_of_range (f : BumpSequenceOpFrame) (s : OpState) (r : SequenceRange)
    (hr : f.mBumpSequence.range = some r)
    (hc : s.bumpAccount.getSeqNum < r.min ∨ s.bumpAccount.getSeqNum > r.max) :
    (doApply f s).1 = false ∧
    (doApply f s).2.code = BUMP_SEQ_OUT_OF_RANGE ∧
    codesWritten s (doApply f s).2 = [BUMP_SEQ_OUT_OF_RANGE] ∧
    (doApply f s).2.bumpAccount.getSeqNum = s.bumpAccount.getSeqNum ∧
    (doApply f s).2.bumpAccount = s.bumpAccount := by
  rw [doApply_outside f s ⟨r, hr, hc⟩]
  exact ⟨rfl, rfl, codesWritten_setCode_mark s _ _ _, rfl, rfl⟩

/-- Witness for C2: `c = 130`, `bumpTo = 150`, range `[90, 120]` gives
`BUMP_SEQ_OUT_OF_RANGE` and sequence number 130. -/
theorem doApply_out_of_range_witness :
    ((stateAt 130).bumpAccount.getSeqNum < 90 ∨ (stateAt 130).bumpAccount.getSeqNum > 120) ∧
    (doApply (frameOf scenarioOp) (stateAt 130)).1 = false ∧
    (doApply (frameOf scenarioOp) (stateAt 130)).2.code = BUMP_SEQ_OUT_OF_RANGE ∧
    (doApply (frameOf scenarioOp) (stateAt 130)).2.bumpAccount.getSeqNum = 130 := by
  have hc : (stateAt 130).bumpAccount.getSeqNum < 90 ∨
      (stateAt 130).bumpAccount.getSeqNum > 120 := by decide
  have h := doApply_out_of_range (frameOf scenarioOp) (stateAt 130) ⟨90, 120⟩ rfl hc
  exact ⟨hc, h.1, h.2.1, h.2.2.2.1⟩

/-- C3: `doApply` is a monotonic ratchet: for every frame (any `bumpTo`, range
present or absent, well-formed or not) and every state, the account's sequence
number after `doApply` is at least the one before, whether `doApply` returns
true or false. -/
theorem doApply_monotone (f : BumpSequenceOpFrame) (s : OpState) :
    s.bumpAccount.getSeqNum ≤ (doApply f s).2.bumpAccount.getSeqNum := by
  by_cases h : outsideRange f s.bumpAccount.getSeqNum
  · rw [doApply_outside f s h]
    exact le_refl _
  · rw [doApply_inside f s h]
    exact le_max_right _ _

/-! ## `doCheckValid` -/

theorem doCheckValid_gate (f : BumpSequenceOpFrame) (v : Nat) (s : OpState) (hv : v < 9) :
    doCheckValid f v s =
      (false, (s.mark ⟨"op-bump-sequence", "failure", "not-supported-yet"⟩ "operation").setCode
        BUMP_SEQ_NOT_SUPPORTED_YET) := by
  simp [doCheckValid, hv]

theorem doCheckValid_self (f : BumpSequenceOpFrame) (v : Nat) (s : OpState) (hv : 9 ≤ v)
    (hs : f.txSourceAccount = f.sourceID) :
    doCheckValid f v s =
      (false, (s.mark ⟨"op-bump-sequence", "failure", "no-self-bump"⟩ "operation").setCode
        BUMP_SEQ_NO_SELF_BUMP) := by
  simp [doCheckValid, Nat.not_lt.mpr hv, hs]

theorem doCheckValid_malformed (f : BumpSequenceOpFrame) (v : Nat) (s : OpState) (hv : 9 ≤ v)
    (hs : f.txSourceAccount ≠ f.sourceID) (r : SequenceRange)
    (hr : f.mBumpSequence.range = some r) (hlt : r.max < r.min) :
    doCheckValid f v s =
      (false, (s.mark ⟨"op-bump-sequence", "failure", "invalid-range"⟩ "operation").setCode
        BUMP_SEQ_INVALID_RANGE) := by
  simp [doCheckValid, Nat.not_lt.mpr hv, hs, hr, hlt]

theorem doCheckValid_pass (f : BumpSequenceOpFrame) (v : Nat) (s : OpState) (hv : 9 ≤ v)
    (hs : f.txSourceAccount ≠ f.sourceID)
    (hr : ∀ r, f.mBumpSequence.range = some r → r.min ≤ r.max) :
    doCheckValid f v s = (true, s) := by
  cases hrange : f.mBumpSequence.range with
  | none => simp [doCheckValid, Nat.not_lt.mpr hv, hs, hrange]
  | some r =>
    have := hr r hrange
    simp [doCheckValid, Nat.not_lt.mpr hv, hs, hrange, Nat.not_lt.mpr this]

/-- C4, as stated, fails: with the malformed window `[120, 90]`, a run under
ledger version 8 records `BUMP_SEQ_NOT_SUPPORTED_YET`, and a run under version 9
whose source is the transaction source records `BUMP_SEQ_NO_SELF_BUMP`; neither
records `BUMP_SEQ_INVALID_RANGE`. -/
theorem doCheckValid_invalid_range_counterexample :
    (∃ r, malformedOp.range = some r ∧ r.max < r.min) ∧
    (doCheckValid (frameOf malformedOp) 8 (stateAt 100)).1 = false ∧
    (doCheckValid (frameOf malformedOp) 8 (stateAt 100)).2.code = BUMP_SEQ_NOT_SUPPORTED_YET ∧
    (doCheckValid (selfFrameOf malformedOp) 9 (stateAt 100)).1 = false ∧
    (doCheckValid (selfFrameOf malformedOp) 9 (stateAt 100)).2.code = BUMP_SEQ_NO_SELF_BUMP ∧
    ¬ (∀ (f : BumpSequenceOpFrame) (v : Nat) (s : OpState) (r : SequenceRange),
        f.mBumpSequence.range = some r → r.max < r.min →
        (doCheckValid f v s).1 = false ∧
        (doCheckValid f v s).2.code = BUMP_SEQ_INVALID_RANGE) := by
  refine ⟨⟨⟨120, 90⟩, rfl, by decide⟩, rfl, rfl, rfl, rfl, ?_⟩
  intro h
  have h2 := (h (frameOf malformedOp) 8 (stateAt 100) ⟨120, 90⟩ rfl (by decide)).2
  exact absurd h2 (by decide)

/-- C4, amended: for every request whose range is present with `max < min`,
`doCheckValid` returns false whatever the ledger version, the accounts, `bumpTo`
and the state are; the code it records is `BUMP_SEQ_INVALID_RANGE` exactly when
the ledger version is at least 9 and the transaction source differs from the
operation source. -/
theorem doCheckValid_invalid_range (f : BumpSequenceOpFrame) (v : Nat) (s : OpState)
    (r : SequenceRange) (hr : f.mBumpSequence.range = some r) (hlt : r.max < r.min) :
    (doCheckValid f v s).1 = false ∧
    (9 ≤ v → f.txSourceAccount ≠ f.sourceID →
      (doCheckValid f v s).2.code = BUMP_SEQ_INVALID_RANGE ∧
      codesWritten s (doCheckValid f v s).2 = [BUMP_SEQ_INVALID_RANGE]) ∧
    (codesWritten s (doCheckValid f v s).2 = [BUMP_SEQ_INVALID_RANGE] ↔
      9 ≤ v ∧ f.txSourceAccount ≠ f.sourceID) := by
  by_cases hv : v < 9
  · rw [doCheckValid_gate f v s hv, codesWritten_setCode_mark]
    refine ⟨rfl, fun h9 => absurd hv (Nat.not_lt.mpr h9), ?_⟩
    constructor
    · intro h
      exact absurd h (by decide)
    · intro h
      exact absurd hv (Nat.not_lt.mpr h.1)
  · have h9 : 9 ≤ v := Nat.not_lt.mp hv
    by_cases hs : f.txSourceAccount = f.sourceID
    · rw [doCheckValid_self f v s h9 hs, codesWritten_setCode_mark]
      refine ⟨rfl, fun _ hne => absurd hs hne, ?_⟩
      constructor
      · intro h
        exact absurd h (by decide)
      · intro h
        exact absurd hs h.2
    · rw [doCheckValid_malformed f v s h9 hs r hr hlt, codesWritten_setCode_mark]
      exact ⟨rfl, fun _ _ => ⟨rfl, rfl⟩, fun _ => ⟨h9, hs⟩, fun _ => rfl⟩

/-- Witness for the amended C4: window `[120, 90]`, ledger version 9, distinct
accounts. -/
theorem doCheckValid_invalid_range_witness :
    ((frameOf malformedOp).mBumpSequence.range = some ⟨120, 90⟩ ∧ (90 : Nat) < 120 ∧
      9 ≤ 9 ∧ (frameOf malformedOp).txSourceAccount ≠ (frameOf malformedOp).sourceID) ∧
    (doCheckValid (frameOf malformedOp) 9 (stateAt 100)).1 = false ∧
    (doCheckValid (frameOf malformedOp) 9 (stateAt 100)).2.code = BUMP_SEQ_INVALID_RANGE := by
  have h := doCheckValid_invalid_range (frameOf malformedOp) 9 (stateAt 100) ⟨120, 90⟩ rfl
    (by decide)
  have hne : (frameOf malformedOp).txSourceAccount ≠ (frameOf malformedOp).sourceID := by
    decide
  exact ⟨⟨rfl, by decide, le_refl 9, hne⟩, h.1, (h.2.1 (le_refl 9) hne).1⟩

/-- C5, as stated, fails: a self-bump checked under ledger version 8 is rejected
by the version gate, which records `BUMP_SEQ_NOT_SUPPORTED_YET` and not
`BUMP_SEQ_NO_SELF_BUMP`. -/
theorem doCheckValid_self_bump_counterexample :
    (selfFrameOf scenarioOp).txSourceAccount = (selfFrameOf scenarioOp).sourceID ∧
    (doCheckValid (selfFrameOf scenarioOp) 8 (stateAt 100)).1 = false ∧
    (doCheckValid (selfFrameOf scenarioOp) 8 (stateAt 100)).2.code =
      BUMP_SEQ_NOT_SUPPORTED_YET ∧
    codesWritten (stateAt 100) (doCheckValid (selfFrameOf scenarioOp) 8 (stateAt 100)).2 =
      [BUMP_SEQ_NOT_SUPPORTED_YET] ∧
    ¬ (∀ (f : BumpSequenceOpFrame) (v : Nat) (s : OpState),
        f.txSourceAccount = f.sourceID →
        (doCheckValid f v s).1 = false ∧
        (doCheckValid f v s).2.code = BUMP_SEQ_NO_SELF_BUMP) := by
  refine ⟨rfl, rfl, rfl, ?_, ?_⟩
  · rw [doCheckValid_gate _ _ _ (by decide), codesWritten_setCode_mark]
  · intro h
    have h2 := (h (selfFrameOf scenarioOp) 8 (stateAt 100) rfl).2
    exact absurd h2 (by decide)

/-- C5, amended: when the operation's source ID equals the transaction's source
account, `doCheckValid` returns false for every ledger version, `bumpTo` and
range; it records `BUMP_SEQ_NO_SELF_BUMP` (as its only write of the code) for
every ledger version that is at least 9, and only for those. -/
theorem doCheckValid_self_bump (f : BumpSequenceOpFrame) (v : Nat) (s : OpState)
    (hs : f.txSourceAccount = f.sourceID) :
    (doCheckValid f v s).1 = false ∧
    (9 ≤ v →
      (doCheckValid f v s).2.code = BUMP_SEQ_NO_SELF_BUMP ∧
      codesWritten s (doCheckValid f v s).2 = [BUMP_SEQ_NO_SELF_BUMP]) ∧
    (codesWritten s (doCheckValid f v s).2 = [BUMP_SEQ_NO_SELF_BUMP] ↔ 9 ≤ v) := by
  by_cases hv : v < 9
  · rw [doCheckValid_gate f v s hv, codesWritten_setCode_mark]
    refine ⟨rfl, fun h9 => absurd hv (Nat.not_lt.mpr h9), ?_⟩
    constructor
    · intro h
      exact absurd h (by decide)
    · intro h
      exact absurd hv (Nat.not_lt.mpr h)
  · have h9 : 9 ≤ v := Nat.not_lt.mp hv
    rw [doCheckValid_self f v s h9 hs, codesWritten_setCode_mark]
    exact ⟨rfl, fun _ => ⟨rfl, rfl⟩, fun _ => h9, fun _ => rfl⟩

/-- Witness for the amended C5: account `1` bumping itself under ledger
version 9. -/
theorem doCheckValid_self_bump_witness :
    (selfFrameOf scenarioOp).txSourceAccount = (selfFrameOf scenarioOp).sourceID ∧
    (doCheckValid (selfFrameOf scenarioOp) 9 (stateAt 100)).1 = false ∧
    (doCheckValid (selfFrameOf scenarioOp) 9 (stateAt 100)).2.code = BUMP_SEQ_NO_SELF_BUMP := by
  have h := doCheckValid_self_bump (selfFrameOf scenarioOp) 9 (stateAt 100) rfl
  exact ⟨rfl, h.1, (h.2.1 (le_refl 9)).1⟩

/-- The codes `doCheckValid` writes are at most one, and it is the code the
result holds afterwards. -/
theorem doCheckValid_writes (f : BumpSequenceOpFrame) (v : Nat) (s : OpState) :
    (codesWritten s (doCheckValid f v s).2 = [] ∧ (doCheckValid f v s).1 = true) ∨
    (codesWritten s (doCheckValid f v s).2 = [(doCheckValid f v s).2.code] ∧
      (doCheckValid f v s).1 = false) := by
  by_cases hv : v < 9
  · rw [doCheckValid_gate f v s hv, codesWritten_setCode_mark]
    exact Or.inr ⟨rfl, rfl⟩
  · have h9 : 9 ≤ v := Nat.not_lt.mp hv
    by_cases hs : f.txSourceAccount = f.sourceID
    · rw [doCheckValid_self f v s h9 hs, codesWritten_setCode_mark]
      exact Or.inr ⟨rfl, rfl⟩
    · by_cases hr : ∀ r, f.mBumpSequence.range = some r → r.min ≤ r.max
      · rw [doCheckValid_pass f v s h9 hs hr, codesWritten_self]
        exact Or.inl ⟨rfl, rfl⟩
      · push_neg at hr
        obtain ⟨r, hr, hlt⟩ := hr
        rw [doCheckValid_malformed f v s h9 hs r hr hlt, codesWritten_setCode_mark]
        exact Or.inr ⟨rfl, rfl⟩

/-- C6: the feature gate.  For every ledger version `v < 9` and every frame and
state, `doCheckValid` returns false and records `BUMP_SEQ_NOT_SUPPORTED_YET`
(as its only write of the code); for every `v ≥ 9` no write of the code made by
`doCheckValid` is `BUMP_SEQ_NOT_SUPPORTED_YET`. -/
theorem doCheckValid_feature_gate (f : BumpSequenceOpFrame) (v : Nat) (s : OpState) :
    (v < 9 →
      (doCheckValid f v s).1 = false ∧
      (doCheckValid f v s).2.code = BUMP_SEQ_NOT_SUPPORTED_YET ∧
      codesWritten s (doCheckValid f v s).2 = [BUMP_SEQ_NOT_SUPPORTED_YET]) ∧
    (9 ≤ v → BUMP_SEQ_NOT_SUPPORTED_YET ∉ codesWritten s (doCheckValid f v s).2) := by
  constructor
  · intro hv
    rw [doCheckValid_gate f v s hv, codesWritten_setCode_mark]
    exact ⟨rfl, rfl, rfl⟩
  · intro h9
    by_cases hs : f.txSourceAccount = f.sourceID
    · rw [doCheckValid_self f v s h9 hs, codesWritten_setCode_mark]
      decide
    · by_cases hr : ∀ r, f.mBumpSequence.range = some r → r.min ≤ r.max
      · rw [doCheckValid_pass f v s h9 hs hr, codesWritten_self]
        exact List.not_mem_nil _
      · push_neg at hr
        obtain ⟨r, hr, hlt⟩ := hr
        rw [doCheckValid_malformed f v s h9 hs r hr hlt, codesWritten_setCode_mark]
        decide

/-- Witness for C6: the scenario request under ledger version 8 (gate closed) and
the malformed request under ledger version 9 (gate open, another code
recorded). -/
theorem doCheckValid_feature_gate_witness :
    ((8 : Nat) < 9 ∧
      (doCheckValid (frameOf scenarioOp) 8 (stateAt 100)).1 = false ∧
      (doCheckValid (frameOf scenarioOp) 8 (stateAt 100)).2.code =
        BUMP_SEQ_NOT_SUPPORTED_YET) ∧
    ((9 : Nat) ≤ 9 ∧
      BUMP_SEQ_NOT_SUPPORTED_YET ∉
        codesWritten (stateAt 100) (doCheckValid (frameOf malformedOp) 9 (stateAt 100)).2) := by
  have h8 := (doCheckValid_feature_gate (frameOf scenarioOp) 8 (stateAt 100)).1 (by decide)
  have h9 := (doCheckValid_feature_gate (frameOf malformedOp) 9 (stateAt 100)).2 (le_refl 9)
  exact ⟨⟨by decide, h8.1, h8.2.1⟩, ⟨le_refl 9, h9⟩⟩

/-- C7: `doCheckValid` runs its checks in the order version gate, self-bump
guard, range sanity and reports the first that fails: `BUMP_SEQ_NOT_SUPPORTED_YET`
if the version is below 9; otherwise `BUMP_SEQ_NO_SELF_BUMP` if the transaction
source equals the operation source; otherwise `BUMP_SEQ_INVALID_RANGE` if a
range is present with `max < min`.  It returns true exactly when the version is
at least 9, the accounts differ and the range is absent or has `min ≤ max`, and
it never writes more than one code. -/
theorem doCheckValid_ordered (f : BumpSequenceOpFrame) (v : Nat) (s : OpState) :
    (v < 9 →
      (doCheckValid f v s).1 = false ∧
      (doCheckValid f v s).2.code = BUMP_SEQ_NOT_SUPPORTED_YET ∧
      codesWritten s (doCheckValid f v s).2 = [BUMP_SEQ_NOT_SUPPORTED_YET]) ∧
    (9 ≤ v → f.txSourceAccount = f.sourceID →
      (doCheckValid f v s).1 = false ∧
      (doCheckValid f v s).2.code = BUMP_SEQ_NO_SELF_BUMP ∧
      codesWritten s (doCheckValid f v s).2 = [BUMP_SEQ_NO_SELF_BUMP]) ∧
    (9 ≤ v → f.txSourceAccount ≠ f.sourceID →
      ∀ r, f.mBumpSequence.range = some r → r.max < r.min →
      (doCheckValid f v s).1 = false ∧
      (doCheckValid f v s).2.code = BUMP_SEQ_INVALID_RANGE ∧
      codesWritten s (doCheckValid f v s).2 = [BUMP_SEQ_INVALID_RANGE]) ∧
    ((doCheckValid f v s).1 = true ↔
      9 ≤ v ∧ f.txSourceAccount ≠ f.sourceID ∧
      (f.mBumpSequence.range = none ∨
        ∃ r, f.mBumpSequence.range = some r ∧ r.min ≤ r.max)) ∧
    (codesWritten s (doCheckValid f v s).2).length ≤ 1 := by
  refine ⟨?_, ?_, ?_, ?_, ?_⟩
  · intro hv
    rw [doCheckValid_gate f v s hv, codesWritten_setCode_mark]
    exact ⟨rfl, rfl, rfl⟩
  · intro h9 hs
    rw [doCheckValid_self f v s h9 hs, codesWritten_setCode_mark]
    exact ⟨rfl, rfl, rfl⟩
  · intro h9 hs r hr hlt
    rw [doCheckValid_malformed f v s h9 hs r hr hlt, codesWritten_setCode_mark]
    exact ⟨rfl, rfl, rfl⟩
  · constructor
    · intro ht
      by_cases hv : v < 9
      · rw [doCheckValid_gate f v s hv] at ht
        exact absurd ht Bool.false_ne_true
      · have h9 : 9 ≤ v := Nat.not_lt.mp hv
        by_cases hs : f.txSourceAccount = f.sourceID
        · rw [doCheckValid_self f v s h9 hs] at ht
          exact absurd ht Bool.false_ne_true
        · refine ⟨h9, hs, ?_⟩
          cases hr : f.mBumpSequence.range with
          | none => exact Or.inl rfl
          | some r =>
            refine Or.inr ⟨r, rfl, ?_⟩
            by_contra hlt
            rw [doCheckValid_malformed f v s h9 hs r hr (Nat.not_le.mp hlt)] at ht
            exact absurd ht Bool.false_ne_true
    · rintro ⟨h9, hs, hr⟩
      have hr2 : ∀ r, f.mBumpSequence.range = some r → r.min ≤ r.max := by
        intro r hsome
        rcases hr with hnone | ⟨r2, hsome2, hle⟩
        · rw [hnone] at hsome
          exact absurd hsome (by simp)
        · rw [hsome2] at hsome
          cases hsome
          exact hle
      rw [doCheckValid_pass f v s h9 hs hr2]
  · rcases doCheckValid_writes f v s with ⟨h, _⟩ | ⟨h, _⟩ <;> simp [h]

/-- Witness for C7: a malformed self-bump under version 8 records only the
version gate's code, the same request under version 9 records only the
self-bump code, and a malformed request between distinct accounts under
version 9 records the range code. -/
theorem doCheckValid_ordered_witness :
    ((8 : Nat) < 9 ∧
      (doCheckValid (selfFrameOf malformedOp) 8 (stateAt 100)).1 = false ∧
      codesWritten (stateAt 100) (doCheckValid (selfFrameOf malformedOp) 8 (stateAt 100)).2 =
        [BUMP_SEQ_NOT_SUPPORTED_YET]) ∧
    ((9 : Nat) ≤ 9 ∧
      (selfFrameOf malformedOp).txSourceAccount = (selfFrameOf malformedOp).sourceID ∧
      (doCheckValid (selfFrameOf malformedOp) 9 (stateAt 100)).1 = false ∧
      codesWritten (stateAt 100) (doCheckValid (selfFrameOf malformedOp) 9 (stateAt 100)).2 =
        [BUMP_SEQ_NO_SELF_BUMP]) ∧
    ((frameOf malformedOp).txSourceAccount ≠ (frameOf malformedOp).sourceID ∧
      (frameOf malformedOp).mBumpSequence.range = some ⟨120, 90⟩ ∧ (90 : Nat) < 120 ∧
      (doCheckValid (frameOf malformedOp) 9 (stateAt 100)).1 = false ∧
      codesWritten (stateAt 100) (doCheckValid (frameOf malformedOp) 9 (stateAt 100)).2 =
        [BUMP_SEQ_INVALID_RANGE]) := by
  have h8 := (doCheckValid_ordered (selfFrameOf malformedOp) 8 (stateAt 100)).1 (by decide)
  have h9 := (doCheckValid_ordered (selfFrameOf malformedOp) 9 (stateAt 100)).2.1
    (le_refl 9) rfl
  have hne : (frameOf malformedOp).txSourceAccount ≠ (frameOf malformedOp).sourceID := by
    decide
  have hr := (doCheckValid_ordered (frameOf malformedOp) 9 (stateAt 100)).2.2.1
    (le_refl 9) hne ⟨120, 90⟩ rfl (by decide)
  exact ⟨⟨by decide, h8.1, h8.2.2⟩, ⟨le_refl 9, rfl, h9.1, h9.2.2⟩,
    ⟨hne, rfl, by decide, hr.1, hr.2.2⟩⟩

/-! ## Relational properties of `doApply` -/

theorem doApply_seqNum_noop (f : BumpSequenceOpFrame) (s : OpState)
    (hb : f.mBumpSequence.bumpTo ≤ s.bumpAccount.getSeqNum) :
    (doApply f s).2.bumpAccount.getSeqNum = s.bumpAccount.getSeqNum := by
  by_cases h : outsideRange f s.bumpAccount.getSeqNum
  · rw [doApply_outside f s h]
    rfl
  · rw [doApply_inside f s h]
    exact max_eq_right hb

/-- C8: idempotence of the no-op bump.  When `bumpTo ≤ c`, running `doApply`
twice in succession leaves the same sequence number as running it once, and
that number is `c`: neither run changes it. -/
theorem doApply_noop_idempotent (f : BumpSequenceOpFrame) (s : OpState)
    (hb : f.mBumpSequence.bumpTo ≤ s.bumpAccount.getSeqNum) :
    (doApply f (doApply f s).2).2.bumpAccount.getSeqNum =
      (doApply f s).2.bumpAccount.getSeqNum ∧
    (doApply f s).2.bumpAccount.getSeqNum = s.bumpAccount.getSeqNum ∧
    (doApply f (doApply f s).2).2.bumpAccount.getSeqNum = s.bumpAccount.getSeqNum := by
  have h1 := doApply_seqNum_noop f s hb
  have h2 := doApply_seqNum_noop f (doApply f s).2 (by rw [h1]; exact hb)
  exact ⟨h2, h1, h2.trans h1⟩

/-- Witness for C8: `bumpTo = 50` at sequence number 100 inside the window
`[90, 120]`. -/
theorem doApply_noop_idempotent_witness :
    (frameOf lowBumpOp).mBumpSequence.bumpTo ≤ (stateAt 100).bumpAccount.getSeqNum ∧
    (doApply (frameOf lowBumpOp) (doApply (frameOf lowBumpOp) (stateAt 100)).2).2.bumpAccount.getSeqNum =
      (doApply (frameOf lowBumpOp) (stateAt 100)).2.bumpAccount.getSeqNum ∧
    (doApply (frameOf lowBumpOp) (stateAt 100)).2.bumpAccount.getSeqNum = 100 := by
  have hb : (frameOf lowBumpOp).mBumpSequence.bumpTo ≤ (stateAt 100).bumpAccount.getSeqNum := by
    decide
  have h := doApply_noop_idempotent (frameOf lowBumpOp) (stateAt 100) hb
  exact ⟨hb, h.1, h.2.1⟩

theorem outsideRange_congr (f g : BumpSequenceOpFrame) (c : SequenceNumber)
    (hr : f.mBumpSequence.range = g.mBumpSequence.range) :
    outsideRange f c ↔ outsideRange g c := by
  unfold outsideRange
  rw [hr]

/-- C9: `bumpTo` is never a reason for rejection.  For two frames that differ at
most in `bumpTo` (same range, same operation source, same transaction source),
run under the same ledger version from the same state, `doCheckValid` returns
the same boolean and records the same code (indeed it yields the same state),
and `doApply` returns the same boolean and records the same code; so no value of
`bumpTo` turns a success into a failure. -/
theorem bumpTo_never_rejected (f g : BumpSequenceOpFrame) (v : Nat) (s : OpState)
    (hr : f.mBumpSequence.range = g.mBumpSequence.range)
    (hsrc : f.sourceID = g.sourceID)
    (htx : f.txSourceAccount = g.txSourceAccount) :
    (doCheckValid f v s).1 = (doCheckValid g v s).1 ∧
    (doCheckValid f v s).2.code = (doCheckValid g v s).2.code ∧
    doCheckValid f v s = doCheckValid g v s ∧
    (doApply f s).1 = (doApply g s).1 ∧
    (doApply f s).2.code = (doApply g s).2.code ∧
    codesWritten s (doApply f s).2 = codesWritten s (doApply g s).2 := by
  have hcv : doCheckValid f v s = doCheckValid g v s := by
    simp [doCheckValid, hr, hsrc, htx]
  refine ⟨by rw [hcv], by rw [hcv], hcv, ?_⟩
  by_cases h : outsideRange f s.bumpAccount.getSeqNum
  · rw [doApply_outside f s h,
      doApply_outside g s ((outsideRange_congr f g _ hr).mp h)]
    exact ⟨rfl, rfl, rfl⟩
  · rw [doApply_inside f s h,
      doApply_inside g s (fun hg => h ((outsideRange_congr f g _ hr).mpr hg))]
    refine ⟨rfl, rfl, ?_⟩
    simp [codesWritten, OpState.mark, OpState.setCode, OpState.storeChange, OpState.setSeqNum]

/-- Witness for C9: `bumpTo = 150` against `bumpTo = 50` (below the current
sequence number 100), same window `[90, 120]`; both are applied successfully. -/
theorem bumpTo_never_rejected_witness :
    ((frameOf scenarioOp).mBumpSequence.range = (frameOf lowBumpOp).mBumpSequence.range ∧
      (frameOf scenarioOp).sourceID = (frameOf lowBumpOp).sourceID ∧
      (frameOf scenarioOp).txSourceAccount = (frameOf lowBumpOp).txSourceAccount) ∧
    (doCheckValid (frameOf scenarioOp) 9 (stateAt 100)).1 =
      (doCheckValid (frameOf lowBumpOp) 9 (stateAt 100)).1 ∧
    (doApply (frameOf scenarioOp) (stateAt 100)).1 =
      (doApply (frameOf lowBumpOp) (stateAt 100)).1 ∧
    (doApply (frameOf scenarioOp) (stateAt 100)).2.code =
      (doApply (frameOf lowBumpOp) (stateAt 100)).2.code ∧
    (doApply (frameOf lowBumpOp) (stateAt 100)).1 = true := by
  have h := bumpTo_never_rejected (frameOf scenarioOp) (frameOf lowBumpOp) 9 (stateAt 100)
    rfl rfl rfl
  exact ⟨⟨rfl, rfl, rfl⟩, h.1, h.2.2.2.1, h.2.2.2.2.1, rfl⟩

/-- C10, as stated, fails in its last clause: under the malformed window
`[120, 90]` the sequence number 120 equals `min` and the sequence number 90
equals `max`, yet `doApply` returns false with `BUMP_SEQ_OUT_OF_RANGE` at both
(120 is above `max`, 90 is below `min`). -/
theorem doApply_fails_iff_out_of_range_counterexample :
    (frameOf malformedOp).mBumpSequence.range = some ⟨120, 90⟩ ∧
    ((stateAt 120).bumpAccount.getSeqNum = 120 ∧
      (doApply (frameOf malformedOp) (stateAt 120)).1 = false ∧
      (doApply (frameOf malformedOp) (stateAt 120)).2.code = BUMP_SEQ_OUT_OF_RANGE) ∧
    ((stateAt 90).bumpAccount.getSeqNum = 90 ∧
      (doApply (frameOf malformedOp) (stateAt 90)).1 = false ∧
      (doApply (frameOf malformedOp) (stateAt 90)).2.code = BUMP_SEQ_OUT_OF_RANGE) ∧
    ¬ (∀ (f : BumpSequenceOpFrame) (s : OpState) (r : SequenceRange),
        f.mBumpSequence.range = some r →
        (s.bumpAccount.getSeqNum = r.min ∨ s.bumpAccount.getSeqNum = r.max) →
        (doApply f s).1 = true) := by
  refine ⟨rfl, ⟨rfl, rfl, rfl⟩, ⟨rfl, rfl, rfl⟩, ?_⟩
  intro h
  have h2 := h (frameOf malformedOp) (stateAt 120) ⟨120, 90⟩ rfl (Or.inl rfl)
  exact absurd h2 (by decide)

/-- C10, amended: `doApply` fails only for the range precondition.  For every
request and state it returns false if and only if a range is present and the
current sequence number `c` has `c < min` or `c > max`; a failing run records
`BUMP_SEQ_OUT_OF_RANGE`, a succeeding run records `BUMP_SEQ_SUCCESS`, and no
other code is ever written.  Both bounds are inclusive: for a range with
`min ≤ max`, `c = min` and `c = max` succeed; more precisely, at `c = min` or
`c = max` the run succeeds exactly when `min ≤ max`. -/
theorem doApply_fails_iff_out_of_range (f : BumpSequenceOpFrame) (s : OpState) :
    ((doApply f s).1 = false ↔
      ∃ r, f.mBumpSequence.range = some r ∧
        (s.bumpAccount.getSeqNum < r.min ∨ s.bumpAccount.getSeqNum > r.max)) ∧
    ((doApply f s).1 = false →
      (doApply f s).2.code = BUMP_SEQ_OUT_OF_RANGE ∧
      codesWritten s (doApply f s).2 = [BUMP_SEQ_OUT_OF_RANGE]) ∧
    ((doApply f s).1 = true →
      (doApply f s).2.code = BUMP_SEQ_SUCCESS ∧
      codesWritten s (doApply f s).2 = [BUMP_SEQ_SUCCESS]) ∧
    (BUMP_SEQ_NOT_SUPPORTED_YET ∉ codesWritten s (doApply f s).2 ∧
      BUMP_SEQ_NO_SELF_BUMP ∉ codesWritten s (doApply f s).2 ∧
      BUMP_SEQ_INVALID_RANGE ∉ codesWritten s (doApply f s).2) ∧
    (∀ r, f.mBumpSequence.range = some r → r.min ≤ r.max →
      (s.bumpAccount.getSeqNum = r.min ∨ s.bumpAccount.getSeqNum = r.max) →
      (doApply f s).1 = true) ∧
    (∀ r, f.mBumpSequence.range = some r →
      (s.bumpAccount.getSeqNum = r.min ∨ s.bumpAccount.getSeqNum = r.max) →
      ((doApply f s).1 = true ↔ r.min ≤ r.max)) := by
  have hw : codesWritten s
      ((((s.setSeqNum (max f.mBumpSequence.bumpTo s.bumpAccount.getSeqNum)).storeChange).setCode
        BUMP_SEQ_SUCCESS).mark ⟨"op-bump-sequence", "success", "apply"⟩ "operation") =
      [BUMP_SEQ_SUCCESS] := by
    simp [codesWritten, OpState.mark, OpState.setCode, OpState.storeChange, OpState.setSeqNum]
  by_cases h : outsideRange f s.bumpAccount.getSeqNum
  · rw [doApply_outside f s h, codesWritten_setCode_mark]
    refine ⟨⟨fun _ => h, fun _ => rfl⟩, fun _ => ⟨rfl, rfl⟩,
      fun ht => absurd ht Bool.false_ne_true, ⟨by decide, by decide, by decide⟩, ?_⟩
    have hno : ∀ r, f.mBumpSequence.range = some r →
        (s.bumpAccount.getSeqNum = r.min ∨ s.bumpAccount.getSeqNum = r.max) →
        ¬ r.min ≤ r.max := by
      intro r hr hc hle
      obtain ⟨r2, hr2, hout⟩ := h
      rw [hr] at hr2
      cases hr2
      rcases hc with hc | hc <;> rcases hout with hout | hout <;> rw [hc] at hout
      · exact absurd hout (Nat.lt_irrefl _)
      · exact absurd hle (Nat.not_le.mpr hout)
      · exact absurd hle (Nat.not_le.mpr hout)
      · exact absurd hout (Nat.lt_irrefl _)
    exact ⟨fun r hr hle hc => absurd hle (hno r hr hc),
      fun r hr hc => ⟨fun ht => absurd ht Bool.false_ne_true, fun hle => absurd hle (hno r hr hc)⟩⟩
  · rw [doApply_inside f s h, hw]
    refine ⟨⟨fun ht => absurd ht.symm Bool.false_ne_true, fun hx => absurd hx h⟩,
      fun ht => absurd ht.symm Bool.false_ne_true, fun _ => ⟨rfl, rfl⟩,
      ⟨by decide, by decide, by decide⟩, fun _ _ _ _ => rfl, ?_⟩
    intro r hr hc
    refine ⟨fun _ => ?_, fun _ => rfl⟩
    have hin : ¬ (s.bumpAccount.getSeqNum < r.min ∨ r.max < s.bumpAccount.getSeqNum) :=
      fun hout => h ⟨r, hr, hout⟩
    have hlo : r.min ≤ s.bumpAccount.getSeqNum :=
      Nat.not_lt.mp (fun hlt => hin (Or.inl hlt))
    have hhi : s.bumpAccount.getSeqNum ≤ r.max :=
      Nat.not_lt.mp (fun hlt => hin (Or.inr hlt))
    exact Nat.le_trans hlo hhi

/-- Witness for the amended C10: under the window `[90, 120]`, sequence number
130 fails with `BUMP_SEQ_OUT_OF_RANGE`, while the two bounds 90 and 120
succeed. -/
theorem doApply_fails_iff_out_of_range_witness :
    ((doApply (frameOf scenarioOp) (stateAt 130)).1 = false ∧
      (doApply (frameOf scenarioOp) (stateAt 130)).2.code = BUMP_SEQ_OUT_OF_RANGE) ∧
    ((frameOf scenarioOp).mBumpSequence.range = some ⟨90, 120⟩ ∧ (90 : Nat) ≤ 120 ∧
      (doApply (frameOf scenarioOp) (stateAt 90)).1 = true ∧
      (doApply (frameOf scenarioOp) (stateAt 120)).1 = true) ∧
    ((doApply (frameOf scenarioOp) (stateAt 100)).1 = true ∧
      (doApply (frameOf scenarioOp) (stateAt 100)).2.code = BUMP_SEQ_SUCCESS) := by
  have hf := (doApply_fails_iff_out_of_range (frameOf scenarioOp) (stateAt 130)).1.mpr
    ⟨⟨90, 120⟩, rfl, Or.inr (by decide)⟩
  have hc := (doApply_fails_iff_out_of_range (frameOf scenarioOp) (stateAt 130)).2.1 hf
  have hlo := (doApply_fails_iff_out_of_range (frameOf scenarioOp) (stateAt 90)).2.2.2.2.1
    ⟨90, 120⟩ rfl (by decide) (Or.inl rfl)
  have hhi := (doApply_fails_iff_out_of_range (frameOf scenarioOp) (stateAt 120)).2.2.2.2.1
    ⟨90, 120⟩ rfl (by decide) (Or.inr rfl)
  have ht : (doApply (frameOf scenarioOp) (stateAt 100)).1 = true := rfl
  have hs := (doApply_fails_iff_out_of_range (frameOf scenarioOp) (stateAt 100)).2.2.1 ht
  exact ⟨⟨hf, hc.1⟩, ⟨rfl, by decide, hlo, hhi⟩, ⟨ht, hs.1⟩⟩

/-! ## Frame conditions -/

theorem doCheckValid_cases (f : BumpSequenceOpFrame) (v : Nat) (s : OpState) :
    doCheckValid f v s = (true, s) ∨
    ∃ c, c ≠ BUMP_SEQ_SUCCESS ∧ c ≠ BUMP_SEQ_OUT_OF_RANGE ∧
      doCheckValid f v s = (false, (s.mark (meterOf c) "operation").setCode c) := by
  by_cases hv : v < 9
  · exact Or.inr ⟨BUMP_SEQ_NOT_SUPPORTED_YET, by decide, by decide, doCheckValid_gate f v s hv⟩
  · have h9 : 9 ≤ v := Nat.not_lt.mp hv
    by_cases hs : f.txSourceAccount = f.sourceID
    · exact Or.inr ⟨BUMP_SEQ_NO_SELF_BUMP, by decide, by decide, doCheckValid_self f v s h9 hs⟩
    · by_cases hr : ∀ r, f.mBumpSequence.range = some r → r.min ≤ r.max
      · exact Or.inl (doCheckValid_pass f v s h9 hs hr)
      · push_neg at hr
        obtain ⟨r, hr, hlt⟩ := hr
        exact Or.inr ⟨BUMP_SEQ_INVALID_RANGE, by decide, by decide,
          doCheckValid_malformed f v s h9 hs r hr hlt⟩

/-- C11: `doCheckValid` is read-only on the ledger and silent on success.  For
every input it leaves the account (so its sequence number) and the change log
as they were, and whenever it returns true the result code after the call is
the code before the call and no code has been written. -/
theorem doCheckValid_read_only (f : BumpSequenceOpFrame) (v : Nat) (s : OpState) :
    (doCheckValid f v s).2.bumpAccount.getSeqNum = s.bumpAccount.getSeqNum ∧
    (doCheckValid f v s).2.bumpAccount = s.bumpAccount ∧
    (doCheckValid f v s).2.delta = s.delta ∧
    ((doCheckValid f v s).1 = true →
      (doCheckValid f v s).2.code = s.code ∧
      codesWritten s (doCheckValid f v s).2 = []) := by
  rcases doCheckValid_cases f v s with h | ⟨c, _, _, h⟩
  · rw [h]
    exact ⟨rfl, rfl, rfl, fun _ => ⟨rfl, codesWritten_self s⟩⟩
  · rw [h]
    exact ⟨rfl, rfl, rfl, fun ht => absurd ht Bool.false_ne_true⟩

/-- Witness for C11: the scenario request passes validation under ledger
version 9 and the result code is still the one held before. -/
theorem doCheckValid_read_only_witness :
    (doCheckValid (frameOf scenarioOp) 9 (stateAt 100)).1 = true ∧
    (doCheckValid (frameOf scenarioOp) 9 (stateAt 100)).2.code = (stateAt 100).code ∧
    codesWritten (stateAt 100) (doCheckValid (frameOf scenarioOp) 9 (stateAt 100)).2 = [] := by
  have ht : (doCheckValid (frameOf scenarioOp) 9 (stateAt 100)).1 = true := rfl
  have h := (doCheckValid_read_only (frameOf scenarioOp) 9 (stateAt 100)).2.2.2 ht
  exact ⟨ht, h.1, h.2⟩

/-- C12: the effect footprint of `doApply`.  When it returns true the change log
grows by exactly one record, the entry of the bumped account as it stands after
the bump, and the account's identity, balance and signers are as before; when
it returns false the change log and the whole account are as before. -/
theorem doApply_footprint (f : BumpSequenceOpFrame) (s : OpState) :
    ((doApply f s).1 = true →
      (doApply f s).2.delta = s.delta ++ [(doApply f s).2.bumpAccount.mAccountEntry] ∧
      (doApply f s).2.delta.length = s.delta.length + 1 ∧
      (doApply f s).2.bumpAccount.mAccountEntry.accountID = s.bumpAccount.mAccountEntry.accountID ∧
      (doApply f s).2.bumpAccount.mAccountEntry.balance = s.bumpAccount.mAccountEntry.balance ∧
      (doApply f s).2.bumpAccount.mAccountEntry.signers = s.bumpAccount.mAccountEntry.signers ∧
      (doApply f s).2.bumpAccount =
        s.bumpAccount.setSeqNum (doApply f s).2.bumpAccount.getSeqNum) ∧
    ((doApply f s).1 = false →
      (doApply f s).2.delta = s.delta ∧
      (doApply f s).2.bumpAccount = s.bumpAccount) := by
  by_cases h : outsideRange f s.bumpAccount.getSeqNum
  · rw [doApply_outside f s h]
    exact ⟨fun ht => absurd ht Bool.false_ne_true, fun _ => ⟨rfl, rfl⟩⟩
  · rw [doApply_inside f s h]
    refine ⟨fun _ => ⟨rfl, ?_, rfl, rfl, rfl, rfl⟩, fun ht => absurd ht.symm Bool.false_ne_true⟩
    simp [OpState.mark, OpState.setCode, OpState.storeChange, OpState.setSeqNum]

/-- Witness for C12: the scenario request applied at sequence number 100 logs one
record, and applied at 130 logs none. -/
theorem doApply_footprint_witness :
    ((doApply (frameOf scenarioOp) (stateAt 100)).1 = true ∧
      (doApply (frameOf scenarioOp) (stateAt 100)).2.delta.length = (stateAt 100).delta.length + 1 ∧
      (doApply (frameOf scenarioOp) (stateAt 100)).2.bumpAccount.mAccountEntry.balance =
        (stateAt 100).bumpAccount.mAccountEntry.balance) ∧
    ((doApply (frameOf scenarioOp) (stateAt 130)).1 = false ∧
      (doApply (frameOf scenarioOp) (stateAt 130)).2.delta = (stateAt 130).delta ∧
      (doApply (frameOf scenarioOp) (stateAt 130)).2.bumpAccount = (stateAt 130).bumpAccount) := by
  have ht : (doApply (frameOf scenarioOp) (stateAt 100)).1 = true := rfl
  have hf : (doApply (frameOf scenarioOp) (stateAt 130)).1 = false := rfl
  have h1 := (doApply_footprint (frameOf scenarioOp) (stateAt 100)).1 ht
  have h2 := (doApply_footprint (frameOf scenarioOp) (stateAt 130)).2 hf
  exact ⟨⟨ht, h1.2.1, h1.2.2.2.1⟩, ⟨hf, h2.1, h2.2⟩⟩

/-- C13: `getThresholdLevel` returns `ThresholdLevel.LOW` for every bump-sequence
frame, whatever its payload (`bumpTo`, range) and accounts; it takes no ledger
state at all, so two frames always get the same level. -/
theorem getThresholdLevel_low (f g : BumpSequenceOpFrame) :
    getThresholdLevel f = ThresholdLevel.LOW ∧
    getThresholdLevel f = getThresholdLevel g := by
  exact ⟨rfl, rfl⟩

/-! ## One attempt: validation followed by application -/

theorem attempt_of_pass (f : BumpSequenceOpFrame) (v : Nat) (s : OpState)
    (h : (doCheckValid f v s).1 = true) :
    attempt f v s = doApply f (doCheckValid f v s).2 := by
  simp [attempt, h]

theorem attempt_of_reject (f : BumpSequenceOpFrame) (v : Nat) (s : OpState)
    (h : (doCheckValid f v s).1 = false) :
    attempt f v s = doCheckValid f v s := by
  simp [attempt, h]

theorem codesWritten_success (s : OpState) (b : SequenceNumber) :
    codesWritten s
      ((((s.setSeqNum b).storeChange).setCode BUMP_SEQ_SUCCESS).mark
        ⟨"op-bump-sequence", "success", "apply"⟩ "operation") = [BUMP_SEQ_SUCCESS] := by
  simp [codesWritten, OpState.mark, OpState.setCode, OpState.storeChange, OpState.setSeqNum]

theorem doApply_writes (f : BumpSequenceOpFrame) (s : OpState) :
    (codesWritten s (doApply f s).2 = [BUMP_SEQ_SUCCESS] ∧ (doApply f s).1 = true) ∨
    (codesWritten s (doApply f s).2 = [BUMP_SEQ_OUT_OF_RANGE] ∧ (doApply f s).1 = false) := by
  by_cases h : outsideRange f s.bumpAccount.getSeqNum
  · rw [doApply_outside f s h, codesWritten_setCode_mark]
    exact Or.inr ⟨rfl, rfl⟩
  · rw [doApply_inside f s h, codesWritten_success]
    exact Or.inl ⟨rfl, rfl⟩

/-- C14: one result code per attempt, an attempt being `doCheckValid` followed by
`doApply` only if `doCheckValid` returned true.  The attempt writes the code
exactly once.  When `doCheckValid` returns false the attempt ends there and the
one write is its failure code (`BUMP_SEQ_NOT_SUPPORTED_YET`,
`BUMP_SEQ_NO_SELF_BUMP` or `BUMP_SEQ_INVALID_RANGE`); when it returns true it has
written nothing and the one write is made by `doApply` (`BUMP_SEQ_SUCCESS` or
`BUMP_SEQ_OUT_OF_RANGE`). -/
theorem attempt_one_code (f : BumpSequenceOpFrame) (v : Nat) (s : OpState) :
    (codesWritten s (attempt f v s).2).length = 1 ∧
    ((doCheckValid f v s).1 = false →
      attempt f v s = doCheckValid f v s ∧
      ∃ c, (c = BUMP_SEQ_NOT_SUPPORTED_YET ∨ c = BUMP_SEQ_NO_SELF_BUMP ∨
          c = BUMP_SEQ_INVALID_RANGE) ∧
        codesWritten s (doCheckValid f v s).2 = [c] ∧
        codesWritten s (attempt f v s).2 = [c]) ∧
    ((doCheckValid f v s).1 = true →
      attempt f v s = doApply f (doCheckValid f v s).2 ∧
      codesWritten s (doCheckValid f v s).2 = [] ∧
      ∃ c, (c = BUMP_SEQ_SUCCESS ∨ c = BUMP_SEQ_OUT_OF_RANGE) ∧
        codesWritten (doCheckValid f v s).2 (attempt f v s).2 = [c] ∧
        codesWritten s (attempt f v s).2 = [c]) := by
  rcases doCheckValid_cases f v s with h | ⟨c, hc1, hc2, h⟩
  · have ht : (doCheckValid f v s).1 = true := by rw [h]
    have ha : attempt f v s = doApply f s := by
      rw [attempt_of_pass f v s ht, h]
    rw [ha, h]
    refine ⟨?_, fun hf => absurd hf.symm Bool.false_ne_true, fun _ => ⟨rfl, codesWritten_self s, ?_⟩⟩
    · rcases doApply_writes f s with ⟨hw, _⟩ | ⟨hw, _⟩ <;> rw [hw] <;> rfl
    · rcases doApply_writes f s with ⟨hw, _⟩ | ⟨hw, _⟩
      · exact ⟨BUMP_SEQ_SUCCESS, Or.inl rfl, hw, hw⟩
      · exact ⟨BUMP_SEQ_OUT_OF_RANGE, Or.inr rfl, hw, hw⟩
  · have hf : (doCheckValid f v s).1 = false := by rw [h]
    rw [attempt_of_reject f v s hf, h, codesWritten_setCode_mark]
    refine ⟨rfl, fun _ => ⟨rfl, c, ?_, rfl, rfl⟩, fun ht => absurd ht Bool.false_ne_true⟩
    cases c with
    | BUMP_SEQ_SUCCESS => exact absurd rfl hc1
    | BUMP_SEQ_OUT_OF_RANGE => exact absurd rfl hc2
    | BUMP_SEQ_NOT_SUPPORTED_YET => exact Or.inl rfl
    | BUMP_SEQ_NO_SELF_BUMP => exact Or.inr (Or.inl rfl)
    | BUMP_SEQ_INVALID_RANGE => exact Or.inr (Or.inr rfl)

/-- Witness for C14: a self-bump is rejected by validation with one write; the
scenario request at sequence number 100 passes validation silently and is then
applied with one write. -/
theorem attempt_one_code_witness :
    ((doCheckValid (selfFrameOf scenarioOp) 9 (stateAt 100)).1 = false ∧
      attempt (selfFrameOf scenarioOp) 9 (stateAt 100) =
        doCheckValid (selfFrameOf scenarioOp) 9 (stateAt 100)) ∧
    ((doCheckValid (frameOf scenarioOp) 9 (stateAt 100)).1 = true ∧
      attempt (frameOf scenarioOp) 9 (stateAt 100) =
        doApply (frameOf scenarioOp) (doCheckValid (frameOf scenarioOp) 9 (stateAt 100)).2 ∧
      codesWritten (stateAt 100) (doCheckValid (frameOf scenarioOp) 9 (stateAt 100)).2 = []) := by
  have hf : (doCheckValid (selfFrameOf scenarioOp) 9 (stateAt 100)).1 = false := rfl
  have ht : (doCheckValid (frameOf scenarioOp) 9 (stateAt 100)).1 = true := rfl
  have h1 := (attempt_one_code (selfFrameOf scenarioOp) 9 (stateAt 100)).2.1 hf
  have h2 := (attempt_one_code (frameOf scenarioOp) 9 (stateAt 100)).2.2 ht
  exact ⟨⟨hf, h1.1⟩, ⟨ht, h2.1, h2.2.1⟩⟩

/-! ## Telemetry -/

theorem meterOf_injective : Function.Injective meterOf := by
  intro a b h
  cases a <;> cases b <;> first | rfl | (exfalso; revert h; simp [meterOf])

theorem doApplyUnmetered_outside (f : BumpSequenceOpFrame) (s : OpState)
    (h : outsideRange f s.bumpAccount.getSeqNum) :
    doApplyUnmetered f s = (false, s.setCode BUMP_SEQ_OUT_OF_RANGE) := by
  obtain ⟨r, hr, hc⟩ := h
  simp [doApplyUnmetered, hr, hc]

theorem doApplyUnmetered_inside (f : BumpSequenceOpFrame) (s : OpState)
    (h : ¬ outsideRange f s.bumpAccount.getSeqNum) :
    doApplyUnmetered f s =
      (true, ((s.setSeqNum (max f.mBumpSequence.bumpTo s.bumpAccount.getSeqNum)).storeChange).setCode
        BUMP_SEQ_SUCCESS) := by
  unfold outsideRange at h
  cases hr : f.mBumpSequence.range with
  | none => simp [doApplyUnmetered, hr]
  | some r =>
    have hc : ¬ (s.bumpAccount.getSeqNum < r.min ∨ r.max < s.bumpAccount.getSeqNum) := by
      intro hc
      exact h ⟨r, hr, hc⟩
    simp [doApplyUnmetered, hr, hc]

theorem doCheckValidUnmetered_cases (f : BumpSequenceOpFrame) (v : Nat) (s : OpState) :
    (doCheckValid f v s = (true, s) ∧ doCheckValidUnmetered f v s = (true, s)) ∨
    ∃ c, doCheckValid f v s = (false, (s.mark (meterOf c) "operation").setCode c) ∧
      doCheckValidUnmetered f v s = (false, s.setCode c) := by
  by_cases hv : v < 9
  · exact Or.inr ⟨BUMP_SEQ_NOT_SUPPORTED_YET, doCheckValid_gate f v s hv,
      by simp [doCheckValidUnmetered, hv]⟩
  · have h9 : 9 ≤ v := Nat.not_lt.mp hv
    by_cases hs : f.txSourceAccount = f.sourceID
    · exact Or.inr ⟨BUMP_SEQ_NO_SELF_BUMP, doCheckValid_self f v s h9 hs,
        by simp [doCheckValidUnmetered, hv, hs]⟩
    · cases hrange : f.mBumpSequence.range with
      | none =>
        refine Or.inl ⟨doCheckValid_pass f v s h9 hs ?_, by simp [doCheckValidUnmetered, hv, hs, hrange]⟩
        intro r hr
        rw [hrange] at hr
        exact absurd hr (by simp)
      | some r =>
        by_cases hlt : r.max < r.min
        · exact Or.inr ⟨BUMP_SEQ_INVALID_RANGE, doCheckValid_malformed f v s h9 hs r hrange hlt,
            by simp [doCheckValidUnmetered, hv, hs, hrange, hlt]⟩
        · refine Or.inl ⟨doCheckValid_pass f v s h9 hs ?_,
            by simp [doCheckValidUnmetered, hv, hs, hrange, hlt]⟩
          intro r2 hr2
          rw [hrange] at hr2
          cases hr2
          exact Nat.not_lt.mp hlt

/-- C15: telemetry is one mark per terminal outcome, keyed by that outcome, and
inert.  Every run of `doApply`, and every run of `doCheckValid` that returns
false, marks exactly one meter, the one `meterOf` assigns to the recorded code
(distinct codes have distinct meters); a run of `doCheckValid` that returns
true marks nothing.  The programs with the marks deleted mark nothing and
return the same boolean, the same code and the same sequence number. -/
theorem telemetry_keyed_and_inert (f : BumpSequenceOpFrame) (v : Nat) (s : OpState) :
    (doApply f s).2.meters = s.meters ++ [(meterOf (doApply f s).2.code, "operation")] ∧
    ((doCheckValid f v s).1 = false →
      (doCheckValid f v s).2.meters =
        s.meters ++ [(meterOf (doCheckValid f v s).2.code, "operation")]) ∧
    ((doCheckValid f v s).1 = true → (doCheckValid f v s).2.meters = s.meters) ∧
    Function.Injective meterOf ∧
    ((doApplyUnmetered f s).2.meters = s.meters ∧
      (doApply f s).1 = (doApplyUnmetered f s).1 ∧
      (doApply f s).2.code = (doApplyUnmetered f s).2.code ∧
      (doApply f s).2.bumpAccount.getSeqNum = (doApplyUnmetered f s).2.bumpAccount.getSeqNum) ∧
    ((doCheckValidUnmetered f v s).2.meters = s.meters ∧
      (doCheckValid f v s).1 = (doCheckValidUnmetered f v s).1 ∧
      (doCheckValid f v s).2.code = (doCheckValidUnmetered f v s).2.code ∧
      (doCheckValid f v s).2.bumpAccount.getSeqNum =
        (doCheckValidUnmetered f v s).2.bumpAccount.getSeqNum) := by
  have hA : (doApply f s).2.meters = s.meters ++ [(meterOf (doApply f s).2.code, "operation")] ∧
      ((doApplyUnmetered f s).2.meters = s.meters ∧
      (doApply f s).1 = (doApplyUnmetered f s).1 ∧
      (doApply f s).2.code = (doApplyUnmetered f s).2.code ∧
      (doApply f s).2.bumpAccount.getSeqNum = (doApplyUnmetered f s).2.bumpAccount.getSeqNum) := by
    by_cases h : outsideRange f s.bumpAccount.getSeqNum
    · rw [doApply_outside f s h, doApplyUnmetered_outside f s h]
      exact ⟨rfl, rfl, rfl, rfl, rfl⟩
    · rw [doApply_inside f s h, doApplyUnmetered_inside f s h]
      exact ⟨rfl, rfl, rfl, rfl, rfl⟩
  refine ⟨hA.1, ?_, ?_, meterOf_injective, hA.2, ?_⟩
  · intro hf
    rcases doCheckValidUnmetered_cases f v s with ⟨h, _⟩ | ⟨c, h, _⟩
    · rw [h] at hf
      exact absurd hf.symm Bool.false_ne_true
    · rw [h]
      rfl
  · intro ht
    rcases doCheckValidUnmetered_cases f v s with ⟨h, _⟩ | ⟨c, h, _⟩
    · rw [h]
    · rw [h] at ht
      exact absurd ht Bool.false_ne_true
  · rcases doCheckValidUnmetered_cases f v s with ⟨h, hu⟩ | ⟨c, h, hu⟩
    · rw [h, hu]
      exact ⟨rfl, rfl, rfl, rfl⟩
    · rw [h, hu]
      exact ⟨rfl, rfl, rfl, rfl⟩

/-- Witness for C15: a self-bump rejected under ledger version 9 marks the
`no-self-bump` meter once; the scenario request passes validation without a
mark. -/
theorem telemetry_keyed_and_inert_witness :
    ((doCheckValid (selfFrameOf scenarioOp) 9 (stateAt 100)).1 = false ∧
      (doCheckValid (selfFrameOf scenarioOp) 9 (stateAt 100)).2.meters =
        [(⟨"op-bump-sequence", "failure", "no-self-bump"⟩, "operation")]) ∧
    ((doCheckValid (frameOf scenarioOp) 9 (stateAt 100)).1 = true ∧
      (doCheckValid (frameOf scenarioOp) 9 (stateAt 100)).2.meters = []) := by
  have hf : (doCheckValid (selfFrameOf scenarioOp) 9 (stateAt 100)).1 = false := rfl
  have ht : (doCheckValid (frameOf scenarioOp) 9 (stateAt 100)).1 = true := rfl
  have h1 := (telemetry_keyed_and_inert (selfFrameOf scenarioOp) 9 (stateAt 100)).2.1 hf
  have h2 := (telemetry_keyed_and_inert (frameOf scenarioOp) 9 (stateAt 100)).2.2.1 ht
  exact ⟨⟨hf, h1⟩, ⟨ht, h2⟩⟩

/-! ## The window, repeated and reordered bumps -/

/-- C16: the range constrains the sequence number read before the bump, not the
one written.  There is a request that passes `doCheckValid` and a current
sequence number inside its window for which `doApply` returns true with
`BUMP_SEQ_SUCCESS` and leaves a sequence number above `range.max`: current 100,
`bumpTo` 150, window `[90, 120]` yields 150. -/
theorem range_guards_current_only :
    (∃ (f : BumpSequenceOpFrame) (v : Nat) (s : OpState) (r : SequenceRange),
      f.mBumpSequence.range = some r ∧
      (doCheckValid f v s).1 = true ∧
      r.min ≤ s.bumpAccount.getSeqNum ∧ s.bumpAccount.getSeqNum ≤ r.max ∧
      (doApply f s).1 = true ∧
      (doApply f s).2.code = BUMP_SEQ_SUCCESS ∧
      r.max < (doApply f s).2.bumpAccount.getSeqNum) ∧
    (doApply (frameOf scenarioOp) (stateAt 100)).2.bumpAccount.getSeqNum = 150 := by
  refine ⟨⟨frameOf scenarioOp, 9, stateAt 100, ⟨90, 120⟩, rfl, rfl, ?_, ?_, rfl, rfl, ?_⟩, rfl⟩
  · show 90 ≤ 100
    decide
  · show 100 ≤ 120
    decide
  · show 120 < 150
    decide

theorem doApply_seqNum_outside (f : BumpSequenceOpFrame) (s : OpState)
    (h : outsideRange f s.bumpAccount.getSeqNum) :
    (doApply f s).2.bumpAccount.getSeqNum = s.bumpAccount.getSeqNum := by
  rw [doApply_outside f s h]
  rfl

theorem doApply_seqNum_inside (f : BumpSequenceOpFrame) (s : OpState)
    (h : ¬ outsideRange f s.bumpAccount.getSeqNum) :
    (doApply f s).2.bumpAccount.getSeqNum =
      max f.mBumpSequence.bumpTo s.bumpAccount.getSeqNum := by
  rw [doApply_inside f s h]
  rfl

/-- C17: the sequence number is idempotent under `doApply` for every request
(any `bumpTo`, range present or absent) and every state: a second run in
succession leaves the sequence number the first run left.  The recorded code
may differ: the scenario request at sequence number 100 records
`BUMP_SEQ_SUCCESS` and moves to 150, and the second run records
`BUMP_SEQ_OUT_OF_RANGE` and stays at 150. -/
theorem doApply_seqNum_idempotent :
    (∀ (f : BumpSequenceOpFrame) (s : OpState),
      (doApply f (doApply f s).2).2.bumpAccount.getSeqNum =
        (doApply f s).2.bumpAccount.getSeqNum) ∧
    ((doApply (frameOf scenarioOp) (stateAt 100)).2.code = BUMP_SEQ_SUCCESS ∧
      (doApply (frameOf scenarioOp) (doApply (frameOf scenarioOp) (stateAt 100)).2).2.code =
        BUMP_SEQ_OUT_OF_RANGE ∧
      (doApply (frameOf scenarioOp) (stateAt 100)).2.bumpAccount.getSeqNum = 150 ∧
      (doApply (frameOf scenarioOp)
        (doApply (frameOf scenarioOp) (stateAt 100)).2).2.bumpAccount.getSeqNum = 150) := by
  refine ⟨?_, rfl, rfl, rfl, rfl⟩
  intro f s
  by_cases h2 : outsideRange f (doApply f s).2.bumpAccount.getSeqNum
  · exact doApply_seqNum_outside f (doApply f s).2 h2
  · rw [doApply_seqNum_inside f (doApply f s).2 h2]
    by_cases h1 : outsideRange f s.bumpAccount.getSeqNum
    · rw [doApply_seqNum_outside f s h1] at h2
      exact absurd h1 h2
    · rw [doApply_seqNum_inside f s h1]
      exact max_eq_right (le_max_left _ _)

theorem not_outsideRange_of_none (f : BumpSequenceOpFrame) (c : SequenceNumber)
    (h : f.mBumpSequence.range = none) : ¬ outsideRange f c := by
  rintro ⟨r, hr, _⟩
  rw [h] at hr
  exact absurd hr (by simp)

theorem doApply_rangeless (f : BumpSequenceOpFrame) (s : OpState)
    (h : f.mBumpSequence.range = none) :
    (doApply f s).1 = true ∧
    (doApply f s).2.code = BUMP_SEQ_SUCCESS ∧
    (doApply f s).2.bumpAccount.getSeqNum =
      max f.mBumpSequence.bumpTo s.bumpAccount.getSeqNum := by
  rw [doApply_inside f s (not_outsideRange_of_none f _ h)]
  exact ⟨rfl, rfl, rfl⟩

/-- C18: bumps without a range commute.  For two range-less frames with `bumpTo`
values `b1` and `b2` run from the same state with sequence number `c`, both
runs succeed in either order and leave the sequence number at
`max c (max b1 b2)`, which is also what a single range-less bump to
`max b1 b2` leaves. -/
theorem rangeless_bumps_commute (f1 f2 g : BumpSequenceOpFrame) (s : OpState)
    (h1 : f1.mBumpSequence.range = none) (h2 : f2.mBumpSequence.range = none)
    (hg : g.mBumpSequence = plainOp (max f1.mBumpSequence.bumpTo f2.mBumpSequence.bumpTo)) :
    ((doApply f1 s).1 = true ∧ (doApply f2 (doApply f1 s).2).1 = true) ∧
    ((doApply f2 s).1 = true ∧ (doApply f1 (doApply f2 s).2).1 = true) ∧
    (doApply f2 (doApply f1 s).2).2.bumpAccount.getSeqNum =
      max s.bumpAccount.getSeqNum (max f1.mBumpSequence.bumpTo f2.mBumpSequence.bumpTo) ∧
    (doApply f1 (doApply f2 s).2).2.bumpAccount.getSeqNum =
      max s.bumpAccount.getSeqNum (max f1.mBumpSequence.bumpTo f2.mBumpSequence.bumpTo) ∧
    (doApply g s).1 = true ∧
    (doApply g s).2.bumpAccount.getSeqNum =
      max s.bumpAccount.getSeqNum (max f1.mBumpSequence.bumpTo f2.mBumpSequence.bumpTo) := by
  have hgr : g.mBumpSequence.range = none := by rw [hg]; rfl
  have hgb : g.mBumpSequence.bumpTo =
      max f1.mBumpSequence.bumpTo f2.mBumpSequence.bumpTo := by rw [hg]; rfl
  have a1 := doApply_rangeless f1 s h1
  have a2 := doApply_rangeless f2 s h2
  have a12 := doApply_rangeless f2 (doApply f1 s).2 h2
  have a21 := doApply_rangeless f1 (doApply f2 s).2 h1
  have ag := doApply_rangeless g s hgr
  refine ⟨⟨a1.1, a12.1⟩, ⟨a2.1, a21.1⟩, ?_, ?_, ag.1, ?_⟩
  · rw [a12.2.2, a1.2.2, max_comm f1.mBumpSequence.bumpTo f2.mBumpSequence.bumpTo,
      max_comm s.bumpAccount.getSeqNum, max_assoc]
  · rw [a21.2.2, a2.2.2, max_comm s.bumpAccount.getSeqNum, max_assoc]
  · rw [ag.2.2, hgb, max_comm]

/-- Witness for C18: bumps to 150 and to 50 from sequence number 100, in both
orders, against one bump to 150. -/
theorem rangeless_bumps_commute_witness :
    ((frameOf (plainOp 150)).mBumpSequence.range = none ∧
      (frameOf (plainOp 50)).mBumpSequence.range = none) ∧
    (doApply (frameOf (plainOp 50)) (doApply (frameOf (plainOp 150)) (stateAt 100)).2).1 = true ∧
    (doApply (frameOf (plainOp 150)) (doApply (frameOf (plainOp 50)) (stateAt 100)).2).1 = true ∧
    (doApply (frameOf (plainOp 50))
      (doApply (frameOf (plainOp 150)) (stateAt 100)).2).2.bumpAccount.getSeqNum = 150 ∧
    (doApply (frameOf (plainOp 150))
      (doApply (frameOf (plainOp 50)) (stateAt 100)).2).2.bumpAccount.getSeqNum = 150 ∧
    (doApply (frameOf (plainOp 150)) (stateAt 100)).2.bumpAccount.getSeqNum = 150 := by
  have h := rangeless_bumps_commute (frameOf (plainOp 150)) (frameOf (plainOp 50))
    (frameOf (plainOp 150)) (stateAt 100) rfl rfl rfl
  exact ⟨⟨rfl, rfl⟩, h.1.2, h.2.1.2, h.2.2.1, h.2.2.2.1, h.2.2.2.2.2⟩

/-- C19: `doApply` is safe against a malformed range even without validation.
For every frame whose range has `max < min`, every `bumpTo` and every state,
`doApply` returns false, records `BUMP_SEQ_OUT_OF_RANGE` (as its only write of
the code) and leaves the account, its sequence number and the change log as
they were; and `doCheckValid` returns false on the same frame under every
ledger version. -/
theorem doApply_malformed_range_fails (f : BumpSequenceOpFrame) (s : OpState)
    (r : SequenceRange) (hr : f.mBumpSequence.range = some r) (hlt : r.max < r.min) :
    (doApply f s).1 = false ∧
    (doApply f s).2.code = BUMP_SEQ_OUT_OF_RANGE ∧
    codesWritten s (doApply f s).2 = [BUMP_SEQ_OUT_OF_RANGE] ∧
    (doApply f s).2.bumpAccount.getSeqNum = s.bumpAccount.getSeqNum ∧
    (doApply f s).2.bumpAccount = s.bumpAccount ∧
    (doApply f s).2.delta = s.delta ∧
    (∀ v t, (doCheckValid f v t).1 = false) := by
  have hout : outsideRange f s.bumpAccount.getSeqNum := by
    refine ⟨r, hr, ?_⟩
    by_cases hc : s.bumpAccount.getSeqNum < r.min
    · exact Or.inl hc
    · exact Or.inr (Nat.lt_of_lt_of_le hlt (Nat.not_lt.mp hc))
  rw [doApply_outside f s hout]
  refine ⟨rfl, rfl, codesWritten_setCode_mark s _ _ _, rfl, rfl, rfl, ?_⟩
  intro v t
  rcases doCheckValid_cases f v t with h | ⟨c, _, _, h⟩
  · exfalso
    by_cases hv : v < 9
    · rw [doCheckValid_gate f v t hv] at h
      exact absurd (congrArg Prod.fst h) Bool.false_ne_true
    · have h9 : 9 ≤ v := Nat.not_lt.mp hv
      by_cases hs : f.txSourceAccount = f.sourceID
      · rw [doCheckValid_self f v t h9 hs] at h
        exact absurd (congrArg Prod.fst h) Bool.false_ne_true
      · rw [doCheckValid_malformed f v t h9 hs r hr hlt] at h
        exact absurd (congrArg Prod.fst h) Bool.false_ne_true
  · rw [h]

/-- Witness for C19: the window `[120, 90]` at sequence numbers 100 (below `min`)
and 120 (equal to `min`, above `max`). -/
theorem doApply_malformed_range_fails_witness :
    ((frameOf malformedOp).mBumpSequence.range = some ⟨120, 90⟩ ∧ (90 : Nat) < 120) ∧
    ((doApply (frameOf malformedOp) (stateAt 100)).1 = false ∧
      (doApply (frameOf malformedOp) (stateAt 100)).2.code = BUMP_SEQ_OUT_OF_RANGE ∧
      (doApply (frameOf malformedOp) (stateAt 100)).2.bumpAccount.getSeqNum = 100) ∧
    ((doApply (frameOf malformedOp) (stateAt 120)).1 = false ∧
      (doApply (frameOf malformedOp) (stateAt 120)).2.bumpAccount.getSeqNum = 120) := by
  have h1 := doApply_malformed_range_fails (frameOf malformedOp) (stateAt 100) ⟨120, 90⟩ rfl
    (by decide)
  have h2 := doApply_malformed_range_fails (frameOf malformedOp) (stateAt 120) ⟨120, 90⟩ rfl
    (by decide)
  exact ⟨⟨rfl, by decide⟩, ⟨h1.1, h1.2.1, h1.2.2.2.1⟩, ⟨h2.1, h2.2.2.2.1⟩⟩

end stellar
